import Mathlib

/-!
Verification of the travel-agent application core against its design
specification.  Each section shallowly embeds one part of the source:

* the hotel adapter (`src/tools/booking_hotel_tool.py`),
* the flight adapter (`src/tools/amadeus_flight_tool.py`),
* the search orchestrator and its background task
  (`src/main.py`, `src/enhanced_login.py`, `src/simple_login.py`),
* the token-revocation machinery (`src/main.py`).

Python floats are modelled by exact rationals, Python `datetime` values by a
day ordinal plus seconds-within-day, and the process-wide dictionaries by
association lists.
-/

namespace TravelApp

/-! ## Hotel adapter: src/tools/booking_hotel_tool.py -/

/-- Rounding to two decimal places; models Python `round(x, 2)` on exact
rationals as `⌊x·100 + 1/2⌋ / 100` (they agree except on half-cent ties,
which no claim exercises). -/
def round2 (q : ℚ) : ℚ := (⌊q * 100 + 1 / 2⌋ : ℚ) / 100

/-- `BookingHotelTool._calculate_discount` (booking_hotel_tool.py:76-91):
returns 0.0 on non-positive original price, otherwise the percentage
discount clamped below at 0 and rounded to two decimals. -/
def calculate_discount (original_price current_price : ℚ) : ℚ :=
  if original_price ≤ 0 then 0
  else round2 (max 0 ((original_price - current_price) / original_price * 100))

/-- The long-stay bonus computed inside `BookingHotelTool._apply_filters`
(booking_hotel_tool.py:170-174): 0 unless the stay exceeds 3 nights,
otherwise `min(5 * (num_days - 3), 20)`. -/
def long_stay_discount (num_days : ℤ) : ℚ :=
  if num_days > 3 then min (5 * ((num_days : ℤ) - 3) : ℚ) 20 else 0

/-- One input hotel offer as read out of the provider payload by
`_apply_filters` (price.current, price.original and the descriptive
fields). -/
structure HotelIn where
  name : String
  id : String
  current : ℚ
  original : ℚ
  currency : String
  rating : String
  address : String
  amenities : List String
deriving Repr, DecidableEq

/-- One structured hotel record as built by `_apply_filters`
(booking_hotel_tool.py:178-195). -/
structure HotelOut where
  name : String
  hotel_id : String
  price_per_night : ℚ
  total_price : ℚ
  original_price_per_night : ℚ
  discount_percentage : ℚ
  long_stay_discount : ℚ
  currency : String
  rating : String
  address : String
  amenities : List String
  has_discount : Bool
  discount_amount : ℚ
  is_long_stay_deal : Bool
deriving Repr, DecidableEq

/-- The retention decision of the `_apply_filters` loop body
(booking_hotel_tool.py:163-177): skip offers priced outside
`[price_min, price_max]`, then keep exactly those with
`discount > 10` or (`num_days > 3` and a positive long-stay bonus). -/
def keep_hotel (price_min price_max : ℚ) (num_days : ℤ) (h : HotelIn) : Bool :=
  if h.current < price_min ∨ h.current > price_max then false
  else if calculate_discount h.original h.current > 10 ∨
          (num_days > 3 ∧ long_stay_discount num_days > 0) then true
  else false

/-- The `hotel_data` record built for a retained offer
(booking_hotel_tool.py:178-195). -/
def hotel_data (num_days : ℤ) (h : HotelIn) : HotelOut :=
  let d := calculate_discount h.original h.current
  let ls := long_stay_discount num_days
  { name := h.name
    hotel_id := h.id
    price_per_night := h.current
    total_price := h.current * (num_days : ℚ)
    original_price_per_night := h.original
    discount_percentage := d
    long_stay_discount := if num_days > 3 then ls else 0
    currency := h.currency
    rating := h.rating
    address := h.address
    amenities := h.amenities.take 5
    has_discount := decide (d > 0)
    discount_amount := h.original - h.current
    is_long_stay_deal := decide (num_days > 3 ∧ ls > 0) }

/-- The sort key of `_apply_filters` (booking_hotel_tool.py:202-206):
`discount_percentage + long_stay_discount`. -/
def savings_key (o : HotelOut) : ℚ := o.discount_percentage + o.long_stay_discount

/-- `BookingHotelTool._apply_filters` (booking_hotel_tool.py:135-208):
filter by price range and the retention rule, build the structured
records, sort them descending by combined savings, truncate to 10. -/
def apply_filters (hotels : List HotelIn) (price_min price_max : ℚ)
    (num_days : ℤ) : List HotelOut :=
  let filtered := (hotels.filter (keep_hotel price_min price_max num_days)).map
    (hotel_data num_days)
  (filtered.mergeSort (fun a b => decide (savings_key b ≤ savings_key a))).take 10

/-- The worked example of spec §8 as an input offer:
`original_price = 150`, `current_price = 120`. -/
def sample_hotel : HotelIn :=
  { name := "Sample Hotel Downtown LA"
    id := "12345"
    current := 120
    original := 150
    currency := "USD"
    rating := "4.2"
    address := "Downtown Los Angeles, CA"
    amenities := ["WiFi", "Pool", "Gym", "Parking", "Restaurant"] }

theorem round2_nonneg (q : ℚ) (hq : 0 ≤ q) : 0 ≤ round2 q := by
  unfold round2
  have h : (0 : ℤ) ≤ ⌊q * 100 + 1 / 2⌋ := by
    apply Int.le_floor.mpr
    push_cast
    linarith
  have h' : (0 : ℚ) ≤ (⌊q * 100 + 1 / 2⌋ : ℚ) := by exact_mod_cast h
  positivity

theorem keep_hotel_iff (price_min price_max : ℚ) (num_days : ℤ) (h : HotelIn) :
    keep_hotel price_min price_max num_days h = true ↔
      (price_min ≤ h.current ∧ h.current ≤ price_max ∧
        (10 < calculate_discount h.original h.current ∨
          (3 < num_days ∧ 0 < long_stay_discount num_days))) := by
  unfold keep_hotel
  split_ifs with h1 h2
  · simp only [Bool.false_eq_true, false_iff]
    rintro ⟨ha, hb, -⟩
    rcases h1 with h1 | h1 <;> linarith
  · push_neg at h1
    simp only [true_iff]
    exact ⟨h1.1, h1.2, h2⟩
  · simp only [Bool.false_eq_true, false_iff]
    rintro ⟨-, -, hc⟩
    exact h2 hc

/-- C1: for every input list of hotel offers, stay length and price-bound
pair, the hotel adapter computes each discount as
`(original − current)/original · 100` clamped at 0 and rounded to two
decimals (0 when `original ≤ 0`), computes the long-stay bonus
`min(5·(nights−3), 20)` exactly when `nights > 3` and 0 otherwise, retains
an in-range offer iff `discount > 10` or (`nights > 3` and the bonus is
positive), sorts the retained offers descending by `discount + bonus`, and
returns at most 10; in particular `original = 150, current = 120,
nights = 5` gives discount 20, bonus 10, retention, combined score 30. -/
theorem hotel_filter_correct :
    (∀ original current : ℚ,
        calculate_discount original current =
          if original ≤ 0 then 0
          else round2 (max 0 ((original - current) / original * 100)))
    ∧ (∀ n : ℤ,
        long_stay_discount n = if 3 < n then min (5 * ((n : ℤ) - 3) : ℚ) 20 else 0)
    ∧ (∀ (price_min price_max : ℚ) (n : ℤ) (h : HotelIn),
        keep_hotel price_min price_max n h = true ↔
          (price_min ≤ h.current ∧ h.current ≤ price_max ∧
            (10 < calculate_discount h.original h.current ∨
              (3 < n ∧ 0 < long_stay_discount n))))
    ∧ (∀ (hotels : List HotelIn) (price_min price_max : ℚ) (n : ℤ) (h : HotelIn),
        h ∈ hotels.filter (keep_hotel price_min price_max n) ↔
          (h ∈ hotels ∧ keep_hotel price_min price_max n h = true))
    ∧ (∀ (hotels : List HotelIn) (price_min price_max : ℚ) (n : ℤ),
        (apply_filters hotels price_min price_max n).Pairwise
          (fun a b => savings_key b ≤ savings_key a))
    ∧ (∀ (hotels : List HotelIn) (price_min price_max : ℚ) (n : ℤ),
        (apply_filters hotels price_min price_max n).length ≤ 10)
    ∧ (calculate_discount 150 120 = 20 ∧ long_stay_discount 5 = 10 ∧
        keep_hotel 0 500 5 sample_hotel = true ∧
        savings_key (hotel_data 5 sample_hotel) = 30) := by
  refine ⟨fun _ _ => rfl, fun _ => rfl, keep_hotel_iff, ?_, ?_, ?_, ?_, ?_, ?_, ?_⟩
  · intro hotels price_min price_max n h
    simp [List.mem_filter]
  · intro hotels price_min price_max n
    unfold apply_filters
    have hs := @List.sorted_mergeSort HotelOut
      (fun a b : HotelOut => decide (savings_key b ≤ savings_key a))
      (fun a b c hab hbc => by
        simp only [decide_eq_true_eq] at *
        linarith)
      (fun a b => by
        simp only [Bool.or_eq_true, decide_eq_true_eq]
        exact le_total (savings_key b) (savings_key a))
      ((hotels.filter (keep_hotel price_min price_max n)).map (hotel_data n))
    have hs' := hs.imp (fun hab => of_decide_eq_true hab)
    exact hs'.sublist (List.take_sublist 10 _)
  · intro hotels price_min price_max n
    unfold apply_filters
    exact List.length_take_le 10 _
  · show calculate_discount 150 120 = 20
    unfold calculate_discount round2
    rw [if_neg (by norm_num)]
    norm_num
  · show long_stay_discount 5 = 10
    unfold long_stay_discount
    norm_num
  · show keep_hotel 0 500 5 sample_hotel = true
    rw [keep_hotel_iff]
    refine ⟨by norm_num [sample_hotel], by norm_num [sample_hotel], Or.inr ⟨by norm_num, ?_⟩⟩
    unfold long_stay_discount
    norm_num
  · show savings_key (hotel_data 5 sample_hotel) = 30
    unfold savings_key hotel_data sample_hotel calculate_discount round2 long_stay_discount
    norm_num

/-- Witness for C1: the worked example evaluated through the theorem. -/
theorem hotel_filter_correct_witness :
    calculate_discount 150 120 = 20 ∧ long_stay_discount 5 = 10 ∧
    keep_hotel 0 500 5 sample_hotel = true ∧
    savings_key (hotel_data 5 sample_hotel) = 30 :=
  hotel_filter_correct.2.2.2.2.2.2

/-- C9: an in-range offer with a stay of more than 3 nights is always
retained, because the long-stay bonus is at least 5 and hence positive;
conversely the `discount > 10` cutoff only ever excludes in-range offers
for stays of 3 nights or fewer. -/
theorem long_stay_always_retained :
    (∀ (price_min price_max : ℚ) (n : ℤ) (h : HotelIn),
        3 < n → ¬(h.current < price_min) → ¬(price_max < h.current) →
          5 ≤ long_stay_discount n ∧
          keep_hotel price_min price_max n h = true)
    ∧ (∀ (price_min price_max : ℚ) (n : ℤ) (h : HotelIn),
        ¬(h.current < price_min) → ¬(price_max < h.current) →
          keep_hotel price_min price_max n h = false →
          n ≤ 3 ∧ calculate_discount h.original h.current ≤ 10) := by
  constructor
  · intro price_min price_max n h hn hmin hmax
    have hls : 5 ≤ long_stay_discount n := by
      unfold long_stay_discount
      rw [if_pos hn]
      have hn4 : (4 : ℚ) ≤ (n : ℤ) := by exact_mod_cast hn
      have : (5 : ℚ) ≤ 5 * ((n : ℤ) - 3) := by linarith
      exact le_min this (by norm_num)
    refine ⟨hls, ?_⟩
    rw [keep_hotel_iff]
    exact ⟨le_of_not_lt hmin, le_of_not_lt hmax, Or.inr ⟨hn, by linarith⟩⟩
  · intro price_min price_max n h hmin hmax hkeep
    have hiff := keep_hotel_iff price_min price_max n h
    rw [hkeep] at hiff
    simp only [Bool.false_eq_true, false_iff] at hiff
    push_neg at hiff
    obtain ⟨hd, hrest⟩ := hiff (le_of_not_lt hmin) (le_of_not_lt hmax)
    refine ⟨?_, hd⟩
    by_contra hn3
    push_neg at hn3
    have hls : 5 ≤ long_stay_discount n := by
      unfold long_stay_discount
      rw [if_pos hn3]
      have hn4 : (4 : ℚ) ≤ (n : ℤ) := by exact_mod_cast hn3
      have : (5 : ℚ) ≤ 5 * ((n : ℤ) - 3) := by linarith
      exact le_min this (by norm_num)
    exact absurd hls (not_le.mpr (by linarith [hrest hn3]))

/-- Witness for C9 at `price_min = 0`, `price_max = 500`, `nights = 5` and
the sample offer priced 120. -/
theorem long_stay_always_retained_witness :
    5 ≤ long_stay_discount 5 ∧ keep_hotel 0 500 5 sample_hotel = true :=
  long_stay_always_retained.1 0 500 5 sample_hotel (by norm_num)
    (by norm_num [sample_hotel]) (by norm_num [sample_hotel])

/-- C10: the discount computation is total and never divides by zero: for
non-positive original price it returns 0 without consulting the quotient,
and its result is always non-negative. -/
theorem calculate_discount_total_nonneg :
    (∀ original current : ℚ, original ≤ 0 → calculate_discount original current = 0)
    ∧ (∀ original current : ℚ, 0 ≤ calculate_discount original current) := by
  constructor
  · intro original current h
    unfold calculate_discount
    rw [if_pos h]
  · intro original current
    unfold calculate_discount
    split_ifs with h
    · exact le_refl 0
    · exact round2_nonneg _ (le_max_left 0 _)

/-- Witness for C10 at `original = -5, current = 3` and
`original = 150, current = 120`. -/
theorem calculate_discount_total_nonneg_witness :
    calculate_discount (-5) 3 = 0 ∧ 0 ≤ calculate_discount 150 120 :=
  ⟨calculate_discount_total_nonneg.1 (-5) 3 (by norm_num),
    calculate_discount_total_nonneg.2 150 120⟩

/-! ## Flight adapter: src/tools/amadeus_flight_tool.py -/

/-- `FlightSearchParams.validate_airport_code`
(amadeus_flight_tool.py:43-48): rejects the code unless it is a non-empty,
all-alphabetic string of length exactly 3, and upper-cases accepted codes.
Python `v.isalpha()` is modelled by `Char.isAlpha` over the characters and
`v.upper()` by mapping `Char.toUpper`. -/
def validate_airport_code (v : String) : Except String String :=
  if v.data = [] ∨ ¬(v.data.all Char.isAlpha) ∨ v.length ≠ 3 then
    Except.error ("Invalid airport code: " ++ v ++ ". Must be 3 letters (IATA code)")
  else Except.ok ⟨v.data.map Char.toUpper⟩

/-- C6: an origin or destination string is accepted iff it consists of
exactly 3 alphabetic characters; every accepted code is normalized to
uppercase; every other string is rejected with a validation error. -/
theorem airport_code_validation :
    ∀ v : String,
      ((∃ w, validate_airport_code v = Except.ok w) ↔
        (v.length = 3 ∧ v.data.all Char.isAlpha = true))
      ∧ (v.length = 3 ∧ v.data.all Char.isAlpha = true →
          validate_airport_code v = Except.ok ⟨v.data.map Char.toUpper⟩)
      ∧ (¬(v.length = 3 ∧ v.data.all Char.isAlpha = true) →
          ∃ e, validate_airport_code v = Except.error e) := by
  intro v
  have hlen : v.length = v.data.length := rfl
  by_cases hok : v.length = 3 ∧ v.data.all Char.isAlpha = true
  · have hne : ¬(v.data = [] ∨ ¬(v.data.all Char.isAlpha) ∨ v.length ≠ 3) := by
      push_neg
      refine ⟨?_, by simp [hok.2], hok.1⟩
      intro hnil
      rw [hlen, hnil] at hok
      simp at hok
    refine ⟨?_, fun _ => ?_, fun hc => absurd hok hc⟩
    · constructor
      · intro _
        exact hok
      · intro _
        exact ⟨_, by unfold validate_airport_code; rw [if_neg hne]⟩
    · unfold validate_airport_code
      rw [if_neg hne]
  · have hcond : v.data = [] ∨ ¬(v.data.all Char.isAlpha) ∨ v.length ≠ 3 := by
      by_contra hc
      push_neg at hc
      exact hok ⟨hc.2.2, by simpa using hc.2.1⟩
    refine ⟨?_, fun h => absurd h hok, fun _ => ?_⟩
    · constructor
      · rintro ⟨w, hw⟩
        unfold validate_airport_code at hw
        rw [if_pos hcond] at hw
        exact absurd hw (by simp)
      · intro h
        exact absurd h hok
    · exact ⟨_, by unfold validate_airport_code; rw [if_pos hcond]⟩

/-- Witness for C6: the code `lax` is accepted and normalized to `LAX`,
and the code `L1X` is rejected. -/
theorem airport_code_validation_witness :
    validate_airport_code "lax" = Except.ok "LAX" ∧
    (∃ e, validate_airport_code "L1X" = Except.error e) :=
  ⟨by
    have h := (airport_code_validation "lax").2.1 (by decide)
    simpa using h,
   (airport_code_validation "L1X").2.2 (by decide)⟩

/-- One endpoint of a flight segment (the `departure` / `arrival` objects
of the Amadeus payload): airport IATA code, terminal, timestamp. -/
structure SegmentPoint where
  iataCode : String
  terminal : String
  atTime : String
deriving Repr, DecidableEq

/-- One flight segment of an itinerary. -/
structure Segment where
  departure : SegmentPoint
  arrival : SegmentPoint
  carrierCode : String
  number : String
  aircraft : String
  duration : String
deriving Repr, DecidableEq

/-- One itinerary of a flight offer. -/
structure Itinerary where
  duration : String
  segments : List Segment
deriving Repr, DecidableEq

/-- The price block of a flight offer. -/
structure FlightPrice where
  total : String
  currency : String
  base : String
  fees : List String
deriving Repr, DecidableEq

/-- One raw flight offer as returned by the provider. -/
structure FlightOffer where
  id : String
  price : FlightPrice
  itineraries : List Itinerary
deriving Repr, DecidableEq

/-- The raw provider response body (`data` plus `meta.links.self`). -/
structure RawFlightResponse where
  data : List FlightOffer
  metaSelf : String
deriving Repr, DecidableEq

/-- The HTTP answer of the provider to the flight-offers request. -/
structure ProviderResponse where
  statusCode : ℕ
  body : RawFlightResponse
deriving Repr, DecidableEq

/-- The mock flight dataset returned by `AmadeusAPIClient.search_flights`
on 400/401/403 (amadeus_flight_tool.py:206-258), transliterated field by
field. -/
def mock_flight_data (origin destination departure_date : String) :
    RawFlightResponse :=
  { data :=
      [{ id := "mock_flight_1"
         price := { total := "299.99", currency := "USD", base := "250.00", fees := [] }
         itineraries :=
           [{ duration := "PT5H30M"
              segments :=
                [{ departure := { iataCode := origin, terminal := "4",
                                  atTime := departure_date ++ "T08:00:00" }
                   arrival := { iataCode := destination, terminal := "1",
                                atTime := departure_date ++ "T10:30:00" }
                   carrierCode := "AA", number := "1234", aircraft := "321"
                   duration := "PT5H30M" }] }] },
       { id := "mock_flight_2"
         price := { total := "399.99", currency := "USD", base := "350.00", fees := [] }
         itineraries :=
           [{ duration := "PT7H15M"
              segments :=
                [{ departure := { iataCode := origin, terminal := "4",
                                  atTime := departure_date ++ "T14:00:00" }
                   arrival := { iataCode := "DEN", terminal := "A",
                                atTime := departure_date ++ "T16:00:00" }
                   carrierCode := "UA", number := "5678", aircraft := "737"
                   duration := "PT2H00M" },
                 { departure := { iataCode := "DEN", terminal := "A",
                                  atTime := departure_date ++ "T17:30:00" }
                   arrival := { iataCode := destination, terminal := "3",
                                atTime := departure_date ++ "T19:15:00" }
                   carrierCode := "UA", number := "9012", aircraft := "320"
                   duration := "PT2H45M" }] }] }]
    metaSelf := "mock_amadeus_api_call" }

/-- Outcome of `AmadeusAPIClient.search_flights`: a raised rate-limit
error, a raised HTTP error from `raise_for_status`, or a response body. -/
inductive FlightSearchOutcome where
  | rateLimited (msg : String)
  | httpError (code : ℕ)
  | ok (resp : RawFlightResponse)
deriving Repr, DecidableEq

/-- The response handling of `AmadeusAPIClient.search_flights`
(amadeus_flight_tool.py:194-261): 429 raises a rate-limit error;
401/400/403 return the mock dataset; any other error status raises; a
success status returns the parsed body. -/
def search_flights (origin destination departure_date : String)
    (resp : ProviderResponse) : FlightSearchOutcome :=
  if resp.statusCode = 429 then
    FlightSearchOutcome.rateLimited "Rate limit exceeded. Please try again later."
  else if resp.statusCode = 401 ∨ resp.statusCode = 400 ∨ resp.statusCode = 403 then
    FlightSearchOutcome.ok (mock_flight_data origin destination departure_date)
  else if 400 ≤ resp.statusCode then
    FlightSearchOutcome.httpError resp.statusCode
  else
    FlightSearchOutcome.ok resp.body

/-- One normalized segment as produced by
`AmadeusFlightTool._format_flight_response`. -/
structure FormattedSegment where
  depAirport : String
  depTerminal : String
  depTime : String
  arrAirport : String
  arrTerminal : String
  arrTime : String
  carrier : String
  flight_number : String
  aircraft : String
  duration : String
deriving Repr, DecidableEq

/-- One normalized itinerary: its segments plus
`stops = segment count − 1`. -/
structure FormattedItinerary where
  duration : String
  segments : List FormattedSegment
  stops : ℤ
deriving Repr, DecidableEq

/-- One normalized flight offer. -/
structure FormattedFlight where
  id : String
  price : FlightPrice
  itineraries : List FormattedItinerary
deriving Repr, DecidableEq

/-- The normalized response of `_format_flight_response`. -/
structure FormattedResponse where
  status : String
  message : String
  searchCriteria : String
  flights : List FormattedFlight
deriving Repr, DecidableEq

/-- `AmadeusFlightTool._format_flight_response`
(amadeus_flight_tool.py:292-363): empty data gives a "no flights"
success; otherwise at most 10 offers are normalized, each itinerary
carrying `stops = len(segments) - 1`. -/
def format_flight_response (raw : RawFlightResponse) : FormattedResponse :=
  if raw.data = [] then
    { status := "success", message := "No flights found for the given criteria"
      searchCriteria := "", flights := [] }
  else
    let fmt := (raw.data.take 10).map (fun offer =>
      { id := offer.id
        price := offer.price
        itineraries := offer.itineraries.map (fun itin =>
          { duration := itin.duration
            segments := itin.segments.map (fun s =>
              { depAirport := s.departure.iataCode
                depTerminal := s.departure.terminal
                depTime := s.departure.atTime
                arrAirport := s.arrival.iataCode
                arrTerminal := s.arrival.terminal
                arrTime := s.arrival.atTime
                carrier := s.carrierCode
                flight_number := s.number
                aircraft := s.aircraft
                duration := s.duration })
            stops := (itin.segments.length : ℤ) - 1 }) })
    { status := "success"
      message := "Found " ++ toString fmt.length ++ " flight(s)"
      searchCriteria := raw.metaSelf
      flights := fmt }

/-- C8: a 429 from the provider makes the adapter signal a rate-limited
condition; a request-level client error (400, 401 or 403) makes it return
the fixed, clearly-labeled mock flight dataset instead of propagating the
error, and normalizing that dataset still yields a (non-empty, success)
offer list. -/
theorem flight_client_error_fallback :
    ∀ (origin destination departure_date : String) (resp : ProviderResponse),
      (resp.statusCode = 429 →
        search_flights origin destination departure_date resp =
          FlightSearchOutcome.rateLimited "Rate limit exceeded. Please try again later.")
      ∧ (resp.statusCode = 400 ∨ resp.statusCode = 401 ∨ resp.statusCode = 403 →
          search_flights origin destination departure_date resp =
            FlightSearchOutcome.ok (mock_flight_data origin destination departure_date)
          ∧ (mock_flight_data origin destination departure_date).data.map FlightOffer.id =
              ["mock_flight_1", "mock_flight_2"]
          ∧ (format_flight_response
              (mock_flight_data origin destination departure_date)).status = "success"
          ∧ (format_flight_response
              (mock_flight_data origin destination departure_date)).flights.length = 2) := by
  intro origin destination departure_date resp
  constructor
  · intro h429
    unfold search_flights
    rw [if_pos h429]
  · intro hcode
    have hne : resp.statusCode ≠ 429 := by
      rcases hcode with h | h | h <;> omega
    have hin : resp.statusCode = 401 ∨ resp.statusCode = 400 ∨ resp.statusCode = 403 := by
      tauto
    refine ⟨?_, rfl, ?_, ?_⟩
    · unfold search_flights
      rw [if_neg hne, if_pos hin]
    · unfold format_flight_response mock_flight_data
      rw [if_neg (by simp)]
    · unfold format_flight_response mock_flight_data
      rw [if_neg (by simp)]
      simp

/-- Witness for C8 at a concrete 429 response and a concrete 403
response. -/
theorem flight_client_error_fallback_witness :
    search_flights "NYC" "LAX" "2024-12-15" ⟨429, ⟨[], ""⟩⟩ =
      FlightSearchOutcome.rateLimited "Rate limit exceeded. Please try again later."
    ∧ search_flights "NYC" "LAX" "2024-12-15" ⟨403, ⟨[], ""⟩⟩ =
        FlightSearchOutcome.ok (mock_flight_data "NYC" "LAX" "2024-12-15") :=
  ⟨(flight_client_error_fallback "NYC" "LAX" "2024-12-15" ⟨429, ⟨[], ""⟩⟩).1 rfl,
    ((flight_client_error_fallback "NYC" "LAX" "2024-12-15" ⟨403, ⟨[], ""⟩⟩).2
      (Or.inr (Or.inr rfl))).1⟩

/-! ## Hotel date validation: src/tools/booking_hotel_tool.py -/

/-- A Python `datetime`, reduced to what the hotel date validation
observes: a calendar-day ordinal and the seconds elapsed since the midnight
of that day.  A date parsed from a `YYYY-MM-DD` string sits at midnight
(`sec = 0`); `datetime.now()` carries the current time of day. -/
structure PyDateTime where
  day : ℤ
  sec : ℤ
deriving Repr, DecidableEq

/-- The strict order on `datetime` values: lexicographic on (day, sec). -/
def dtLt (a b : PyDateTime) : Bool :=
  a.day < b.day ∨ (a.day = b.day ∧ a.sec < b.sec)

/-- The non-strict order on `datetime` values. -/
def dtLe (a b : PyDateTime) : Bool :=
  a.day < b.day ∨ (a.day = b.day ∧ a.sec ≤ b.sec)

/-- Midnight of a calendar day: the value `datetime.strptime` returns for
a `YYYY-MM-DD` string naming that day. -/
def midnight (d : ℤ) : PyDateTime := ⟨d, 0⟩

/-- `BookingHotelTool._validate_dates` (booking_hotel_tool.py:49-74) on a
pair of well-formed dates, given the current instant `now`: False when the
check-in midnight is before `now` (`check_in < datetime.now()`), False
when check-out is not strictly after check-in (`check_out <= check_in`),
True otherwise. -/
def validate_dates (now : PyDateTime) (check_in check_out : ℤ) : Bool :=
  if dtLt (midnight check_in) now then false
  else if dtLe (midnight check_out) (midnight check_in) then false
  else true

/-- The validation gate at the top of `BookingHotelTool._execute`
(booking_hotel_tool.py:239-245): an invalid date pair yields the
structured error result, a valid one lets the search proceed. -/
def execute_date_gate (now : PyDateTime) (check_in check_out : ℤ) :
    Except String Unit :=
  if ¬(validate_dates now check_in check_out) then
    Except.error "Invalid dates. Ensure dates are in YYYY-MM-DD format and check-out is after check-in."
  else Except.ok ()

/-- The spec-side notion of a check-in date lying in the past: the
calendar day is strictly before the current calendar day. -/
def dateInPast (now : PyDateTime) (d : ℤ) : Prop := d < now.day

/-- C7 counterexample: with the current instant one second past midnight
of day 0, check-in on day 0 (today — not in the past as a date) and
check-out on day 1 (strictly after), the claim says validation succeeds,
but `_validate_dates` compares check-in midnight against the full current
timestamp and rejects. -/
theorem date_validation_today_rejected :
    ¬ dateInPast ⟨0, 1⟩ 0 ∧ (0 : ℤ) < 1 ∧
    validate_dates ⟨0, 1⟩ 0 1 = false ∧
    (∃ e, execute_date_gate ⟨0, 1⟩ 0 1 = Except.error e) := by
  exact ⟨by simp [dateInPast], by norm_num, rfl, ⟨_, rfl⟩⟩

/-- C7 amended: hotel search fails with a validation-error result whenever
the check-in date is in the past or the check-out date is not strictly
after the check-in date; and date validation succeeds exactly when
check-in midnight is not before the current instant (so a check-in equal
to the current date passes only when the current time is exactly
midnight) and check-out is strictly after check-in. -/
theorem date_validation_amended :
    ∀ (now : PyDateTime) (check_in check_out : ℤ),
      (dateInPast now check_in → validate_dates now check_in check_out = false)
      ∧ (check_out ≤ check_in → validate_dates now check_in check_out = false)
      ∧ (validate_dates now check_in check_out = true ↔
          (dtLt (midnight check_in) now = false ∧ check_in < check_out))
      ∧ (validate_dates now check_in check_out = false ↔
          ∃ e, execute_date_gate now check_in check_out = Except.error e) := by
  intro now check_in check_out
  have hle : dtLe (midnight check_out) (midnight check_in) = true ↔
      check_out ≤ check_in := by
    simp only [dtLe, midnight, decide_eq_true_eq]
    omega
  refine ⟨?_, ?_, ?_, ?_⟩
  · intro hpast
    unfold validate_dates
    rw [if_pos]
    simp only [dtLt, midnight, decide_eq_true_eq]
    exact Or.inl hpast
  · intro hco
    unfold validate_dates
    split_ifs with h1 h2
    · rfl
    · rfl
    · exact absurd (hle.mpr hco) h2
  · unfold validate_dates
    split_ifs with h1 h2
    · simp only [Bool.false_eq_true, false_iff]
      rintro ⟨hnot, -⟩
      rw [h1] at hnot
      exact Bool.true_eq_false.mp hnot
    · simp only [Bool.false_eq_true, false_iff]
      rintro ⟨-, hco⟩
      have := hle.mp h2
      omega
    · simp only [true_iff]
      refine ⟨by simpa using h1, ?_⟩
      have := (not_iff_not.mpr hle).mp h2
      omega
  · unfold execute_date_gate
    cases hv : validate_dates now check_in check_out
    · simp
    · simp

/-- Witness for the C7 amended theorem at `now = day 5, 3600 s`,
check-in day 3 (in the past), check-out day 6. -/
theorem date_validation_amended_witness :
    validate_dates ⟨5, 3600⟩ 3 6 = false :=
  (date_validation_amended ⟨5, 3600⟩ 3 6).1 (by norm_num [dateInPast])

/-! ## Search orchestrator: src/main.py and src/enhanced_login.py -/

/-- The status field of a SearchRecord. -/
inductive SearchStatus where
  | processing
  | completed
  | failed
deriving Repr, DecidableEq

/-- Progress of one scheduled background task (`process_trip_search`,
main.py:233-293, and `process_trip_search_with_real_apis`,
enhanced_login.py:36-93): not yet started, inside the `try` block after
the initial processing write, or returned. -/
inductive TaskPhase where
  | pending
  | running
  | done
deriving Repr, DecidableEq

/-- The state of one search: the phase of the task plus the cache entry for its
search id (`none` = the id is absent from the result dictionary). -/
structure TaskState where
  phase : TaskPhase
  record : Option SearchStatus
deriving Repr, DecidableEq

/-- The step relation of the background task, read off the bodies of
`process_trip_search` and `process_trip_search_with_real_apis`: the first
statement of the `try` block writes the processing record; the last
statement of the `try` block overwrites it with the completed record; the
`except` handler overwrites it with the failed record.  Nothing runs after
a terminal write. -/
inductive TaskStep : TaskState → TaskState → Prop where
  | start (r : Option SearchStatus) :
      TaskStep ⟨TaskPhase.pending, r⟩ ⟨TaskPhase.running, some SearchStatus.processing⟩
  | complete :
      TaskStep ⟨TaskPhase.running, some SearchStatus.processing⟩
        ⟨TaskPhase.done, some SearchStatus.completed⟩
  | fail :
      TaskStep ⟨TaskPhase.running, some SearchStatus.processing⟩
        ⟨TaskPhase.done, some SearchStatus.failed⟩

/-- The state at submission time: the task is scheduled but has not run,
and the cache holds no entry for the fresh id. -/
def taskInit : TaskState := ⟨TaskPhase.pending, none⟩

/-- States reachable from submission by background-task steps. -/
def TaskReachable (s : TaskState) : Prop :=
  Relation.ReflTransGen TaskStep taskInit s

/-- A record in a terminal state. -/
def isTerminal (r : Option SearchStatus) : Bool :=
  r = some SearchStatus.completed ∨ r = some SearchStatus.failed

/-- Polling is a pure read of the cache entry. -/
def read_record (s : TaskState) : Option SearchStatus := s.record

theorem task_reachable_invariant (s : TaskState) (h : TaskReachable s) :
    (s.phase = TaskPhase.pending → s.record = none)
    ∧ (s.phase = TaskPhase.running → s.record = some SearchStatus.processing)
    ∧ (s.phase = TaskPhase.done →
        s.record = some SearchStatus.completed ∨
        s.record = some SearchStatus.failed) := by
  induction h with
  | refl =>
    exact ⟨fun _ => rfl, by simp [taskInit], by simp [taskInit]⟩
  | tail hr step ih =>
    cases step with
    | start r => exact ⟨by simp, fun _ => rfl, by simp⟩
    | complete => exact ⟨by simp, by simp, fun _ => Or.inl rfl⟩
    | fail => exact ⟨by simp, by simp, fun _ => Or.inr rfl⟩

/-- C2: the status of a SearchRecord is monotonic under the background
step relation of the background task: from the processing state the record is written to
exactly one terminal state (completed or failed); no reachable state with
a terminal record has any outgoing step (so no path revisits processing
and no path moves between completed and failed); and reading a record is
a pure function of the state, so a terminal record reads back unchanged. -/
theorem search_status_monotonic :
    (∀ s' : TaskState,
        TaskStep ⟨TaskPhase.running, some SearchStatus.processing⟩ s' →
          s' = ⟨TaskPhase.done, some SearchStatus.completed⟩ ∨
          s' = ⟨TaskPhase.done, some SearchStatus.failed⟩)
    ∧ (∀ s s' : TaskState, TaskReachable s → isTerminal s.record = true →
        ¬ TaskStep s s')
    ∧ (∀ s s' : TaskState, TaskReachable s → TaskStep s s' →
        s'.record = some SearchStatus.processing → s.record = none)
    ∧ (∀ s : TaskState, read_record s = s.record) := by
  refine ⟨?_, ?_, ?_, fun _ => rfl⟩
  · intro s' h
    cases h with
    | complete => exact Or.inl rfl
    | fail => exact Or.inr rfl
  · intro s s' hr hterm hstep
    cases hstep with
    | start r =>
      have hnone := (task_reachable_invariant _ hr).1 rfl
      simp only at hnone
      rw [hnone] at hterm
      exact absurd hterm (by decide)
    | complete => exact absurd hterm (by decide)
    | fail => exact absurd hterm (by decide)
  · intro s s' hr hstep hproc
    cases hstep with
    | start r => exact (task_reachable_invariant _ hr).1 rfl
    | complete => exact absurd hproc (by decide)
    | fail => exact absurd hproc (by decide)

/-- Witness for C2: the completed state reached by start-then-complete is
terminal and admits no further step. -/
theorem search_status_monotonic_witness :
    ¬ TaskStep ⟨TaskPhase.done, some SearchStatus.completed⟩
        ⟨TaskPhase.running, some SearchStatus.processing⟩ :=
  search_status_monotonic.2.1
    ⟨TaskPhase.done, some SearchStatus.completed⟩
    ⟨TaskPhase.running, some SearchStatus.processing⟩
    (Relation.ReflTransGen.tail
      (Relation.ReflTransGen.single (TaskStep.start none))
      TaskStep.complete)
    (by decide)

/-- One entry of the `search_results` dictionary of enhanced_login.py /
simple_login.py: its status, whether a results payload is present, and
the creation timestamp. -/
structure StoredSearch where
  status : SearchStatus
  hasResults : Bool
  created_at : String
deriving Repr, DecidableEq

/-- Dictionary lookup in the in-memory result cache. -/
def lookup_search (cache : List (String × StoredSearch)) (sid : String) :
    Option StoredSearch :=
  (cache.find? (fun p => p.1 == sid)).map Prod.snd

/-- The body of the `POST /search` response of `trip_search`
(enhanced_login.py:95-178). -/
structure SubmitResponse where
  search_id : String
  status : String
  message : String
deriving Repr, DecidableEq

/-- `trip_search` (enhanced_login.py:95-178): generates the fresh search
id, schedules `process_trip_search_with_real_apis` as a background task
and returns immediately.  Crucially it does not write to
`search_results`: the returned cache is the input cache. -/
def trip_search (cache : List (String × StoredSearch)) (sid : String) :
    SubmitResponse × List (String × StoredSearch) :=
  (⟨sid, "processing",
    "Enhanced trip search with real APIs started. Check results using the search ID."⟩,
   cache)

/-- The two response shapes of the simplified GET handlers: the
frontend-formatted shape used for completed records with results, and the
stored record returned as-is otherwise. -/
inductive GetResponse where
  | formatted (search_id : String) (r : StoredSearch)
  | raw (r : StoredSearch)
deriving Repr, DecidableEq

/-- The status carried by either response shape. -/
def GetResponse.statusOf : GetResponse → SearchStatus
  | GetResponse.formatted _ r => r.status
  | GetResponse.raw r => r.status

/-- `get_search_results` of enhanced_login.py (180-206): 404 when the id
is not in the cache; otherwise the record (formatted when completed with
results).  No ownership check — the handler takes no caller identity. -/
def get_search_results_enhanced (cache : List (String × StoredSearch))
    (sid : String) : Except ℕ GetResponse :=
  match lookup_search cache sid with
  | none => Except.error 404
  | some r =>
    if r.status = SearchStatus.completed ∧ r.hasResults = true then
      Except.ok (GetResponse.formatted sid r)
    else Except.ok (GetResponse.raw r)

/-- `get_search_results` of simple_login.py (158-184): same control flow
as the enhanced variant, again with no caller identity. -/
def get_search_results_simple (cache : List (String × StoredSearch))
    (sid : String) : Except ℕ GetResponse :=
  match lookup_search cache sid with
  | none => Except.error 404
  | some r =>
    if r.status = SearchStatus.completed ∧ r.hasResults = true then
      Except.ok (GetResponse.formatted sid r)
    else Except.ok (GetResponse.raw r)

/-- C3 counterexample: submitting a search against an empty result cache
returns the fresh id and reported status "processing" but writes no
record, so a GET issued after submission and before the first write of the
background task returns 404 NotFound — refuting "never NotFound". -/
theorem submit_not_synchronous :
    (trip_search [] "sid-1").2 = [] ∧
    (trip_search [] "sid-1").1.status = "processing" ∧
    get_search_results_enhanced (trip_search [] "sid-1").2 "sid-1" =
      Except.error 404 :=
  ⟨rfl, rfl, rfl⟩

/-- C3 amended: the processing SearchRecord is created by the background
first action of the background task, not synchronously at submission.  Submission returns
the fresh id (reporting status processing) with the result cache
unchanged, so a GET issued after submission and before the first write of
the task returns NotFound; once the task has performed its first write and
until it finishes, the record reads as processing, and a GET of a cached
processing record returns it. -/
theorem submit_then_task_writes_processing :
    (∀ (cache : List (String × StoredSearch)) (sid : String),
        (trip_search cache sid).2 = cache ∧
        (trip_search cache sid).1.search_id = sid ∧
        (trip_search cache sid).1.status = "processing")
    ∧ (∀ (cache : List (String × StoredSearch)) (sid : String),
        lookup_search cache sid = none →
          get_search_results_enhanced (trip_search cache sid).2 sid =
            Except.error 404)
    ∧ (∀ s : TaskState, TaskReachable s → s.phase = TaskPhase.running →
        s.record = some SearchStatus.processing)
    ∧ (∀ s' : TaskState, TaskStep taskInit s' →
        s'.record = some SearchStatus.processing)
    ∧ (∀ (cache : List (String × StoredSearch)) (sid : String) (r : StoredSearch),
        lookup_search cache sid = some r → r.status = SearchStatus.processing →
          get_search_results_enhanced cache sid =
            Except.ok (GetResponse.raw r)) := by
  refine ⟨fun cache sid => ⟨rfl, rfl, rfl⟩, ?_, ?_, ?_, ?_⟩
  · intro cache sid h
    show get_search_results_enhanced cache sid = Except.error 404
    unfold get_search_results_enhanced
    rw [h]
  · intro s hr hrun
    exact (task_reachable_invariant s hr).2.1 hrun
  · intro s' h
    cases h with
    | start r => rfl
  · intro cache sid r h hst
    unfold get_search_results_enhanced
    rw [h]
    simp [hst]

/-- A stored record in the processing state, used by the witnesses. -/
def processing_record : StoredSearch :=
  ⟨SearchStatus.processing, false, "2025-01-01T00:00:00"⟩

/-- Witness for the C3 amended theorem: a GET of a cached processing
record returns that record, and a GET right after submission against an
empty cache returns 404. -/
theorem submit_then_task_writes_processing_witness :
    get_search_results_enhanced [("sid-1", processing_record)] "sid-1" =
      Except.ok (GetResponse.raw processing_record) ∧
    get_search_results_enhanced (trip_search [] "sid-2").2 "sid-2" =
      Except.error 404 :=
  ⟨submit_then_task_writes_processing.2.2.2.2 [("sid-1", processing_record)]
    "sid-1" processing_record rfl rfl,
   submit_then_task_writes_processing.2.1 [] "sid-2" rfl⟩

/-- One entry of the `search_cache` dictionary of main.py: status, owning
user id, and whether a results payload is present. -/
structure CachedSearchMain where
  status : SearchStatus
  user_id : ℤ
  hasResults : Bool
deriving Repr, DecidableEq

/-- Cache lookup of main.py `get_search_results`: the dictionary key is
the string `search:` followed by the search id. -/
def lookup_search_main (cache : List (String × CachedSearchMain))
    (sid : String) : Option CachedSearchMain :=
  (cache.find? (fun p => p.1 == "search:" ++ sid)).map Prod.snd

/-- Result of the authenticated GET handler. -/
inductive MainGetResult where
  | ok (r : CachedSearchMain)
  | forbidden
  | notFound
deriving Repr, DecidableEq

/-- `get_search_results` of main.py (515-554): a cached record is checked
for ownership (403 on mismatch); a cache miss falls back to the database
lookup, then 404. -/
def get_search_results_main (cache : List (String × CachedSearchMain))
    (dbLookup : String → ℤ → Option CachedSearchMain) (sid : String)
    (caller_id : ℤ) : MainGetResult :=
  match lookup_search_main cache sid with
  | some r =>
    if r.user_id ≠ caller_id then MainGetResult.forbidden
    else MainGetResult.ok r
  | none =>
    match dbLookup sid caller_id with
    | none => MainGetResult.notFound
    | some r => MainGetResult.ok r

/-- C4: in the authenticated backend, a GET for an id present in the
result cache fails with Forbidden exactly when the owning user id of the
cached record differs from the id of the caller; in the simplified backend variants
the same lookup performs no ownership check (the handlers take no caller
identity at all) and return the record to any caller supplying the id. -/
theorem ownership_check_variants :
    (∀ (cache : List (String × CachedSearchMain))
        (dbLookup : String → ℤ → Option CachedSearchMain)
        (sid : String) (caller_id : ℤ) (r : CachedSearchMain),
        lookup_search_main cache sid = some r →
          (get_search_results_main cache dbLookup sid caller_id =
              MainGetResult.forbidden ↔ r.user_id ≠ caller_id))
    ∧ (∀ (cache : List (String × StoredSearch)) (sid : String) (r : StoredSearch),
        lookup_search cache sid = some r →
          get_search_results_enhanced cache sid =
            Except.ok (if r.status = SearchStatus.completed ∧ r.hasResults = true
              then GetResponse.formatted sid r else GetResponse.raw r))
    ∧ (∀ (cache : List (String × StoredSearch)) (sid : String) (r : StoredSearch),
        lookup_search cache sid = some r →
          get_search_results_simple cache sid =
            Except.ok (if r.status = SearchStatus.completed ∧ r.hasResults = true
              then GetResponse.formatted sid r else GetResponse.raw r)) := by
  refine ⟨?_, ?_, ?_⟩
  · intro cache dbLookup sid caller_id r h
    unfold get_search_results_main
    rw [h]
    by_cases hid : r.user_id = caller_id
    · simp [hid]
    · simp [hid]
  · intro cache sid r h
    unfold get_search_results_enhanced
    rw [h]
    by_cases hc : r.status = SearchStatus.completed ∧ r.hasResults = true
    · simp [hc]
    · simp [hc]
  · intro cache sid r h
    unfold get_search_results_simple
    rw [h]
    by_cases hc : r.status = SearchStatus.completed ∧ r.hasResults = true
    · simp [hc]
    · simp [hc]

/-- A cached record owned by user 7, for the C4 witness. -/
def cached_search_owner7 : CachedSearchMain :=
  ⟨SearchStatus.completed, 7, true⟩

/-- Witness for C4: user 9 asking for the cached search of user 7 is rejected
with Forbidden in the authenticated backend, while the simplified backend
hands the analogous record to any caller. -/
theorem ownership_check_variants_witness :
    get_search_results_main [("search:sid-1", cached_search_owner7)]
        (fun _ _ => none) "sid-1" 9 = MainGetResult.forbidden ∧
    get_search_results_simple
        [("sid-1", ⟨SearchStatus.failed, false, "t0"⟩)] "sid-1" =
      Except.ok (GetResponse.raw ⟨SearchStatus.failed, false, "t0"⟩) :=
  ⟨(ownership_check_variants.1 [("search:sid-1", cached_search_owner7)]
      (fun _ _ => none) "sid-1" 9 cached_search_owner7 (by decide)).mpr
      (by decide),
   by
    have h := ownership_check_variants.2.2
      [("sid-1", ⟨SearchStatus.failed, false, "t0"⟩)] "sid-1"
      ⟨SearchStatus.failed, false, "t0"⟩ (by decide)
    simpa using h⟩

/-! ## Token revocation: src/main.py -/

/-- A bearer token as the backend observes it: its raw string (the
dictionary key of the revocation set), its decoded claims (`sub`, `type`,
`exp`) and whether its signature verifies. -/
structure AuthToken where
  raw : String
  sub : Option String
  typ : String
  exp : ℤ
  sigValid : Bool
deriving Repr, DecidableEq

/-- A user record as returned by the credential store. -/
structure UserRec where
  id : ℤ
  username : String
  is_active : Bool
deriving Repr, DecidableEq

/-- The module-level mutable auth state of main.py: the
`blacklisted_tokens` revocation set and the `refresh_tokens` index
(modelled keyed by username). -/
structure AuthState where
  blacklisted_tokens : List String
  refresh_tokens : List (String × String)
deriving Repr, DecidableEq

/-- `jwt.decode` as `get_current_user` uses it: raises JWTError (modelled
as `none`) when the signature is invalid or the token is expired,
otherwise yields the claim set. -/
def decode_token (t : AuthToken) (now : ℤ) : Option (Option String × String) :=
  if t.sigValid = false ∨ t.exp ≤ now then none
  else some (t.sub, t.typ)

/-- `get_current_user` (main.py:186-221): reject blacklisted tokens first
with 401, then reject undecodable tokens, missing subjects and non-access
types with 401, unknown users with 401, inactive users with 400. -/
def get_current_user (st : AuthState) (db : String → Option UserRec)
    (now : ℤ) (t : AuthToken) : Except ℕ UserRec :=
  if t.raw ∈ st.blacklisted_tokens then Except.error 401
  else
    match decode_token t now with
    | none => Except.error 401
    | some (sub, typ) =>
      match sub with
      | none => Except.error 401
      | some username =>
        if typ ≠ "access" then Except.error 401
        else
          match db username with
          | none => Except.error 401
          | some u =>
            if u.is_active = false then Except.error 400
            else Except.ok u

/-- `set.add` on the revocation set. -/
def add_blacklist (tok : String) (bl : List String) : List String :=
  if tok ∈ bl then bl else tok :: bl

/-- The state effect of `logout` (main.py:412-431): add the presented
bearer token to the revocation set. -/
def logout (st : AuthState) (t : AuthToken) : AuthState :=
  { st with blacklisted_tokens := add_blacklist t.raw st.blacklisted_tokens }

/-- The state effect of `unregister` (main.py:433-456): blacklist the
current token and drop the refresh tokens of the user. -/
def unregister (st : AuthState) (t : AuthToken) (username : String) : AuthState :=
  { blacklisted_tokens := add_blacklist t.raw st.blacklisted_tokens
    refresh_tokens := st.refresh_tokens.filter (fun p => p.1 ≠ username) }

/-- The endpoints of main.py, abstracted to their effect on the
module-level auth state. -/
inductive ServerOp where
  | registerOp
  | loginOp (username refresh_token : String)
  | logoutOp (t : AuthToken)
  | unregisterOp (t : AuthToken) (username : String)
  | refreshOp
  | searchSubmitOp
  | searchGetOp
  | userSearchesOp
  | userProfileOp
deriving Repr

/-- The auth-state transition of each endpoint: `login` records a refresh
token, `logout` and `unregister` add to the revocation set, every other
endpoint leaves the auth state untouched.  No endpoint removes a token
from the revocation set. -/
def apply_op (st : AuthState) : ServerOp → AuthState
  | ServerOp.loginOp username rt =>
      { st with refresh_tokens := (username, rt) :: st.refresh_tokens }
  | ServerOp.logoutOp t => logout st t
  | ServerOp.unregisterOp t username => unregister st t username
  | _ => st

/-- A handler protected by `Depends(get_current_user)`: it runs only when
authentication succeeds, and propagates the authentication error
otherwise.  Every authenticated endpoint of main.py factors this way. -/
def authed_endpoint {α : Type} (handler : UserRec → AuthState → Except ℕ α)
    (st : AuthState) (db : String → Option UserRec) (now : ℤ)
    (t : AuthToken) : Except ℕ α :=
  match get_current_user st db now t with
  | Except.error e => Except.error e
  | Except.ok u => handler u st

theorem get_current_user_blacklisted (st : AuthState)
    (db : String → Option UserRec) (now : ℤ) (t : AuthToken)
    (h : t.raw ∈ st.blacklisted_tokens) :
    get_current_user st db now t = Except.error 401 := by
  unfold get_current_user
  rw [if_pos h]

theorem mem_add_blacklist (tok x : String) (bl : List String) (hx : x ∈ bl) :
    x ∈ add_blacklist tok bl := by
  unfold add_blacklist
  split_ifs
  · exact hx
  · exact List.mem_cons_of_mem _ hx

/-- C5: once a bearer token is in the revocation set, `get_current_user`
— and with it every endpoint requiring bearer authentication — rejects
that exact token with a 401 error, for every current time (in particular
while the token is unexpired); `logout` puts the presented token into the
revocation set; and no endpoint ever removes a token from the revocation
set for the life of the process state. -/
theorem revoked_token_rejected :
    (∀ (st : AuthState) (db : String → Option UserRec) (now : ℤ) (t : AuthToken),
        t.raw ∈ st.blacklisted_tokens →
          get_current_user st db now t = Except.error 401)
    ∧ (∀ {α : Type} (handler : UserRec → AuthState → Except ℕ α)
        (st : AuthState) (db : String → Option UserRec) (now : ℤ) (t : AuthToken),
        t.raw ∈ st.blacklisted_tokens →
          authed_endpoint handler st db now t = Except.error 401)
    ∧ (∀ (st : AuthState) (t : AuthToken),
        t.raw ∈ (logout st t).blacklisted_tokens)
    ∧ (∀ (st : AuthState) (op : ServerOp) (x : String),
        x ∈ st.blacklisted_tokens → x ∈ (apply_op st op).blacklisted_tokens) := by
  refine ⟨get_current_user_blacklisted, ?_, ?_, ?_⟩
  · intro α handler st db now t h
    unfold authed_endpoint
    rw [get_current_user_blacklisted st db now t h]
  · intro st t
    show t.raw ∈ add_blacklist t.raw st.blacklisted_tokens
    unfold add_blacklist
    split_ifs with h
    · exact h
    · exact List.mem_cons_self _ _
  · intro st op x hx
    cases op with
    | registerOp => exact hx
    | loginOp username rt => exact hx
    | logoutOp t => exact mem_add_blacklist _ _ _ hx
    | unregisterOp t username => exact mem_add_blacklist _ _ _ hx
    | refreshOp => exact hx
    | searchSubmitOp => exact hx
    | searchGetOp => exact hx
    | userSearchesOp => exact hx
    | userProfileOp => exact hx

/-- An unexpired, well-signed access token, revoked in the witness
state. -/
def sample_token : AuthToken :=
  ⟨"tok-1", some "alice", "access", 1000, true⟩

/-- Witness for C5: with `tok-1` in the revocation set, authentication at
time 0 (long before the token expiry 1000) fails with 401. -/
theorem revoked_token_rejected_witness :
    get_current_user ⟨["tok-1"], []⟩ (fun _ => none) 0 sample_token =
      Except.error 401 :=
  revoked_token_rejected.1 ⟨["tok-1"], []⟩ (fun _ => none) 0 sample_token
    (by decide)

end TravelApp
